import Mathlib

/-!
Formal model of the solar-system simulation app (React / three.js).

The app's core is a closed-form stellar-aging model.  The definitions below
are a shallow embedding of the relevant JavaScript functions:

* `useStarPhysics`    — stage/colour/scale selection from (mass, age);
* `getSystemPhysics`  — mass multiplier / current mass during the red-giant
                        phase;
* `SinglePlanet`'s per-frame tick (angle advance, position, death check);
* `AsteroidBelt` / `KuiperBelt` per-frame particle size computation;
* `triggerDeath` and its 2-second `setTimeout` revert (explosion);
* the 50 ms playback interval that advances `age`.

JavaScript numbers are modelled by `ℝ` (the formulas are closed-form real
expressions; fixed hex colour strings are modelled by an inductive tag type,
and the free-text `description` strings are omitted).  Where a claim is
about NaN propagation, a separate lifted model over `Option ℝ` (with `none`
playing the role of NaN) captures the IEEE rule that every comparison with
NaN is false and that arithmetic on NaN yields NaN.
-/

open scoped Classical

noncomputable section

/-- Stage tags returned by the `stage` field of `useStarPhysics` in the app
file.  The JavaScript strings are 'Main Sequence', 'Red Giant', 'SUPERNOVA'
and 'White Dwarf'. -/
inductive Stage
  | mainSequence
  | redGiant
  | supernova
  | whiteDwarf
deriving DecidableEq

/-- Colour tags for the fixed hex strings in `useStarPhysics`:
`paleBlue` = '#aaddff', `yellow` = '#ffaa00', `orangeRed` = '#ff5500',
`deepRed` = '#ff0000', `white` = '#ffffff'. -/
inductive StarColor
  | paleBlue
  | yellow
  | orangeRed
  | deepRed
  | white
deriving DecidableEq

/-- Snapshot returned by `useStarPhysics` (the `description` template
string is omitted from the model). -/
structure StarState where
  stage : Stage
  color : StarColor
  scale : ℝ

/-- Formula `lifespan = 10 / Math.pow(mass, 2.5) + 0.5`, computed identically in
`useStarPhysics` (where it is also called `redGiantStart`) and in
`getSystemPhysics` of the app file. -/
def lifespanOf (mass : ℝ) : ℝ := 10 / mass ^ (2.5 : ℝ) + 0.5

/-- Formula `lifespan * 1.2`, called `deathStart` in `useStarPhysics` and
`redGiantEnd` in `getSystemPhysics`; both compute the same expression. -/
def redGiantEndOf (mass : ℝ) : ℝ := lifespanOf mass * 1.2

/-- Formula `baseSize = Math.log(mass + 1) * 1.5` (natural logarithm). -/
def baseSizeOf (mass : ℝ) : ℝ := Real.log (mass + 1) * 1.5

/-- Ternary `colorTemp = mass > 2 ? '#aaddff' : (mass > 0.8 ? '#ffaa00' : '#ff5500')`. -/
def colorTempOf (mass : ℝ) : StarColor :=
  if 2 < mass then StarColor.paleBlue
  else if 0.8 < mass then StarColor.yellow
  else StarColor.orangeRed

/-- The stage-selection function `useStarPhysics(mass, age)` from the app
file: `if (age < redGiantStart)` → Main Sequence; `else if (age >=
redGiantStart && age < deathStart)` → Red Giant with
`scale = baseSize * (1 + progress * 5)`; else Supernova (`mass > 8`) or
White Dwarf with `scale = baseSize * 0.5` resp. `* 0.2`. -/
def useStarPhysics (mass age : ℝ) : StarState :=
  if age < lifespanOf mass then
    ⟨Stage.mainSequence, colorTempOf mass, baseSizeOf mass⟩
  else if lifespanOf mass ≤ age ∧ age < redGiantEndOf mass then
    ⟨Stage.redGiant, StarColor.deepRed,
      baseSizeOf mass *
        (1 + (age - lifespanOf mass) / (redGiantEndOf mass - lifespanOf mass) * 5)⟩
  else if 8 < mass then
    ⟨Stage.supernova, StarColor.white, baseSizeOf mass * 0.5⟩
  else
    ⟨Stage.whiteDwarf, StarColor.white, baseSizeOf mass * 0.2⟩

/-- Record returned by `getSystemPhysics`. -/
structure SystemPhysics where
  currentMass : ℝ
  lifespan : ℝ
  redGiantEnd : ℝ

/-- The local variable `massMultiplier` of `getSystemPhysics`: initialised
to 1.0; `if (starAge > lifespan && starAge < redGiantEnd)` it becomes
`1.0 - phaseProgress * 0.6`; `else if (starAge >= redGiantEnd)` it is 0.4. -/
def massMultiplierOf (mass age : ℝ) : ℝ :=
  if lifespanOf mass < age ∧ age < redGiantEndOf mass then
    1.0 - (age - lifespanOf mass) / (redGiantEndOf mass - lifespanOf mass) * 0.6
  else if redGiantEndOf mass ≤ age then 0.4
  else 1.0

/-- Function `getSystemPhysics(starMass, starAge)` from the app file. -/
def getSystemPhysics (mass age : ℝ) : SystemPhysics :=
  ⟨mass * massMultiplierOf mass age, lifespanOf mass, redGiantEndOf mass⟩

/-- Formula `initialSystemScale = Math.pow(starMass, 0.5)`, computed the same way
in `SinglePlanet`, `AsteroidBelt` and `KuiperBelt`. -/
def initialSystemScale (mass : ℝ) : ℝ := mass ^ (0.5 : ℝ)

/-- Formula `agingExpansion = starMass / currentMass`. -/
def agingExpansionOf (mass age : ℝ) : ℝ :=
  mass / (getSystemPhysics mass age).currentMass

/-- Formula `expansionFactor = agingExpansion * initialSystemScale`
(as computed in `AsteroidBelt` and `KuiperBelt`). -/
def expansionFactorOf (mass age : ℝ) : ℝ :=
  agingExpansionOf mass age * initialSystemScale mass

/-- Formula `currentSpeed = (speed * Math.sqrt(currentMass)) / initialSystemScale`,
the Kepler-style speed formula shared by planets and belt particles. -/
def currentSpeedOf (speed mass age : ℝ) : ℝ :=
  speed * Real.sqrt (getSystemPhysics mass age).currentMass / initialSystemScale mass

/-- Static catalog parameters of one planet in `PlanetarySystem`
(name, texture and display-only fields omitted). -/
structure PlanetData where
  baseDist : ℝ
  size : ℝ
  speed : ℝ
  isEccentric : Bool
  eccentricity : ℝ
  inclination : ℝ

/-- MERCURY from the planet catalog. -/
def mercury : PlanetData := ⟨3.5, 0.15, 2.0, false, 0, 0⟩

/-- PLUTO, the single eccentric body of the catalog. -/
def pluto : PlanetData := ⟨35.0, 0.25, 0.15, true, 0.2, 0.3⟩

/-- The nine-planet catalog of `PlanetarySystem`, in source order:
Mercury, Venus, Earth, Mars, Jupiter, Saturn, Uranus, Neptune, Pluto. -/
def planetCatalog : List PlanetData :=
  [⟨3.5, 0.15, 2.0, false, 0, 0⟩,
   ⟨5.0, 0.25, 1.5, false, 0, 0⟩,
   ⟨7.0, 0.3, 1.0, false, 0, 0⟩,
   ⟨9.0, 0.2, 0.8, false, 0, 0⟩,
   ⟨14.0, 0.8, 0.5, false, 0, 0⟩,
   ⟨19.0, 0.7, 0.4, false, 0, 0⟩,
   ⟨24.0, 0.5, 0.3, false, 0, 0⟩,
   ⟨28.0, 0.5, 0.2, false, 0, 0⟩,
   ⟨35.0, 0.25, 0.15, true, 0.2, 0.3⟩]

/-- Mutable per-planet simulation state of `SinglePlanet`:
the accumulated orbit `angle` and the one-way `isDead` flag. -/
structure PlanetState where
  angle : ℝ
  isDead : Bool

/-- Position `(x, y, z)` computed by `SinglePlanet` from the (pre-update)
angle: the eccentric branch uses
`r = currentBaseDist * (1 - e*e) / (1 + e * cos angle)` and tilts the
second planar coordinate by the inclination; the circular branch is
`(cos angle * d, 0, sin angle * d)`. -/
def planetPosition (data : PlanetData) (angle currentBaseDist : ℝ) : ℝ × ℝ × ℝ :=
  if data.isEccentric then
    let e := data.eccentricity
    let r := currentBaseDist * (1 - e * e) / (1 + e * Real.cos angle)
    let x0 := r * Real.cos angle
    let z0 := r * Real.sin angle
    (x0, z0 * Real.sin data.inclination, z0 * Real.cos data.inclination)
  else
    (Real.cos angle * currentBaseDist, 0, Real.sin angle * currentBaseDist)

/-- Formula `currentBaseDist = data.baseDist * initialSystemScale * agingExpansion`
as computed in `SinglePlanet`. -/
def planetCurrentBaseDist (data : PlanetData) (mass age : ℝ) : ℝ :=
  data.baseDist * initialSystemScale mass * agingExpansionOf mass age

/-- Quantity `distFromCenter = Math.sqrt(x*x + z*z)` of the position computed in
`SinglePlanet` from the pre-update angle: the vertical coordinate `y` is
ignored. -/
def planetDistFromCenter (data : PlanetData) (angle mass age : ℝ) : ℝ :=
  let pos := planetPosition data angle (planetCurrentBaseDist data mass age)
  Real.sqrt (pos.1 * pos.1 + pos.2.2 * pos.2.2)

/-- One `useFrame` tick of `SinglePlanet`.  If `exploded || isDead` the
frame body is skipped and the state is unchanged.  Otherwise the angle
advances by `delta * currentSpeed * 0.2` (the position uses the pre-update
angle, since `setAngle` only queues the new value), and the death check
runs: `if (starAge > lifespan && starAge < redGiantEnd)` and
`starScale > distFromCenter * 0.95`, then `isDead` becomes true. -/
def planetTick (data : PlanetData) (st : PlanetState) (exploded : Bool)
    (starMass starAge starScale delta : ℝ) : PlanetState :=
  if exploded || st.isDead then st
  else
    let currentSpeed := currentSpeedOf data.speed starMass starAge
    let newAngle := st.angle + delta * currentSpeed * 0.2
    let distFromCenter := planetDistFromCenter data st.angle starMass starAge
    let newDead :=
      if lifespanOf starMass < starAge ∧ starAge < redGiantEndOf starMass ∧
          distFromCenter * 0.95 < starScale then true
      else st.isDead
    ⟨newAngle, newDead⟩

/-- Rendered output of one planet: `if (isDead) return null` — an inert
planet is not rendered at all; otherwise the planet sphere keeps geometry
radius `data.size` and its material colour is '#111' (darkened) exactly
when `exploded` is true (second component). -/
def planetRender (data : PlanetData) (exploded isDead : Bool) : Option (ℝ × Bool) :=
  if isDead then none else some (data.size, exploded)

/-- Per-frame size of one inner-belt (`AsteroidBelt`) particle with static
parameters `dist` (base distance) and `size`: starting from `data.size`,
`if (age > lifespan && age < redGiantEnd && starScale > currentDist * 0.9)`
the size is set to 0, and `if (exploded)` it is set to 0. -/
def asteroidTickSize (dist size mass age starScale : ℝ) (exploded : Bool) : ℝ :=
  let currentDist := dist * expansionFactorOf mass age
  let s := size
  let s := if lifespanOf mass < age ∧ age < redGiantEndOf mass ∧
      currentDist * 0.9 < starScale then 0 else s
  if exploded then 0 else s

/-- Per-frame size of one outer-belt (`KuiperBelt`) particle: the only
override is `if (exploded) s = 0` — there is no engulfment check. -/
def kuiperTickSize (size : ℝ) (exploded : Bool) : ℝ :=
  if exploded then 0 else size

end

/-- Explosion bookkeeping: the `exploded` flag together with the list of
pending `setTimeout` revert deadlines (in ms of wall-clock time). -/
structure ExplosionState where
  exploded : Bool
  timers : List ℚ
deriving DecidableEq

/-- Initial explosion state: not exploded, no pending timer. -/
def explosionInit : ExplosionState := ⟨false, []⟩

/-- Handler `triggerDeath = () => { setExploded(true); setTimeout(() =>
setExploded(false), 2000); }` invoked at wall-clock time `now`: it sets the
flag and unconditionally schedules one more revert timer at `now + 2000`. -/
def triggerDeath (now : ℚ) (s : ExplosionState) : ExplosionState :=
  ⟨true, s.timers ++ [now + 2000]⟩

/-- A scheduled revert timer with deadline `d` fires: it clears the flag
and removes itself from the pending list (a timer that is not pending does
nothing). -/
def fireTimer (d : ℚ) (s : ExplosionState) : ExplosionState :=
  if d ∈ s.timers then ⟨false, s.timers.erase d⟩ else s

/-- Playback state of the `App` component: the `age` slider value and the
`isPlaying` flag. -/
structure PlaybackState where
  age : ℚ
  isPlaying : Bool
deriving DecidableEq

/-- One 50 ms interval tick: the interval only exists while
`isPlaying && age < 15`; the callback runs
`if (prev >= 14.9) { setIsPlaying(false); return 15; } return prev + 0.05;`. -/
def stepTick (s : PlaybackState) : PlaybackState :=
  if s.isPlaying ∧ s.age < 15 then
    if s.age ≥ 14.9 then ⟨15, false⟩ else ⟨s.age + 0.05, s.isPlaying⟩
  else s

noncomputable section

/-- The lifespan computed by the stellar-forge hook
(`src/stellar-forge/src/hooks/useStarPhysics.js`):
`lifespan = 10 / (mass * mass)` — a different formula from the app file's,
and that hook derives no `redGiantEnd` at all. -/
def lifespanSF (mass : ℝ) : ℝ := 10 / (mass * mass)

/-- JS-semantics lifespan lifted to `Option ℝ` with `none` standing for
NaN: `Math.pow(mass, 2.5)` with a negative base and fractional exponent is
NaN, and NaN propagates through the division and the addition, so for
`mass < 0` the whole expression is NaN.  For `mass ≥ 0` the real formula
applies (`mass = 0`, where JS produces Infinity, is outside the modelled
domain and not used by any theorem below). -/
def lifespanJS (mass : ℝ) : Option ℝ :=
  if mass < 0 then none else some (10 / mass ^ (2.5 : ℝ) + 0.5)

/-- JS-semantics `deathStart = lifespan * 1.2`: NaN times 1.2 is NaN. -/
def deathStartJS (mass : ℝ) : Option ℝ :=
  Option.map (fun l => l * 1.2) (lifespanJS mass)

/-- JS `<` on possibly-NaN numbers: any comparison involving NaN is false. -/
def jsLtProp : Option ℝ → Option ℝ → Prop
  | some a, some b => a < b
  | _, _ => False

/-- JS `>=` on possibly-NaN numbers: any comparison involving NaN is false. -/
def jsGeProp : Option ℝ → Option ℝ → Prop
  | some a, some b => b ≤ a
  | _, _ => False

/-- Stage selection of `useStarPhysics` under JS comparison semantics, with
the `age` input (and the derived `lifespan`/`deathStart`) allowed to be NaN:
the branch structure is exactly that of the source —
`if (age < redGiantStart)`, `else if (age >= redGiantStart && age <
deathStart)`, else the remnant branch decided by `mass > 8`. -/
def stageOfJS (mass : ℝ) (age : Option ℝ) : Stage :=
  if jsLtProp age (lifespanJS mass) then Stage.mainSequence
  else if jsGeProp age (lifespanJS mass) ∧ jsLtProp age (deathStartJS mass) then
    Stage.redGiant
  else if 8 < mass then Stage.supernova
  else Stage.whiteDwarf

end

/-! ### Shared helper lemmas -/

theorem lifespan_pos {mass : ℝ} (hm : 0 < mass) : 0 < lifespanOf mass := by
  unfold lifespanOf
  have h := Real.rpow_pos_of_pos hm (2.5 : ℝ)
  positivity

theorem lifespan_lt_redGiantEnd {mass : ℝ} (hm : 0 < mass) :
    lifespanOf mass < redGiantEndOf mass := by
  have h := lifespan_pos hm
  unfold redGiantEndOf
  nlinarith

theorem lifespanOf_one : lifespanOf 1 = 10.5 := by
  unfold lifespanOf
  rw [Real.one_rpow]
  norm_num

theorem redGiantEndOf_one : redGiantEndOf 1 = 12.6 := by
  rw [redGiantEndOf, lifespanOf_one]
  norm_num

theorem initialSystemScale_one : initialSystemScale 1 = 1 := by
  unfold initialSystemScale
  exact Real.one_rpow _

/-! ### C1 — stage selection of `useStarPhysics` -/

/-- C1: for every mass > 0 and every age, `useStarPhysics` selects exactly
one of three stages with boundaries belonging to the later stage:
`age < lifespan` → Main Sequence (scale `baseSize = ln(mass+1)*1.5`);
`lifespan ≤ age < redGiantEnd` → Red Giant with
`scale = baseSize * (1 + 5 * phaseProgress)`; `age ≥ redGiantEnd` →
Supernova (`mass > 8`, scale `baseSize*0.5`) or White Dwarf (scale
`baseSize*0.2`).  In particular at `age = lifespan` the stage is Red
Giant. -/
theorem C1_stage_selection (mass age : ℝ) (hm : 0 < mass) :
    ((useStarPhysics mass age).stage = Stage.mainSequence ↔ age < lifespanOf mass) ∧
    ((useStarPhysics mass age).stage = Stage.redGiant ↔
      lifespanOf mass ≤ age ∧ age < redGiantEndOf mass) ∧
    (((useStarPhysics mass age).stage = Stage.supernova ∨
      (useStarPhysics mass age).stage = Stage.whiteDwarf) ↔ redGiantEndOf mass ≤ age) ∧
    (redGiantEndOf mass ≤ age →
      ((useStarPhysics mass age).stage = Stage.supernova ↔ 8 < mass)) ∧
    (age < lifespanOf mass → (useStarPhysics mass age).scale = baseSizeOf mass) ∧
    (lifespanOf mass ≤ age → age < redGiantEndOf mass →
      (useStarPhysics mass age).scale = baseSizeOf mass *
        (1 + 5 * ((age - lifespanOf mass) / (redGiantEndOf mass - lifespanOf mass)))) ∧
    (redGiantEndOf mass ≤ age → 8 < mass →
      (useStarPhysics mass age).scale = baseSizeOf mass * 0.5) ∧
    (redGiantEndOf mass ≤ age → mass ≤ 8 →
      (useStarPhysics mass age).scale = baseSizeOf mass * 0.2) ∧
    baseSizeOf mass = Real.log (mass + 1) * 1.5 := by
  have hLR : lifespanOf mass < redGiantEndOf mass := lifespan_lt_redGiantEnd hm
  by_cases h1 : age < lifespanOf mass
  · have e : useStarPhysics mass age =
        ⟨Stage.mainSequence, colorTempOf mass, baseSizeOf mass⟩ := by
      unfold useStarPhysics
      rw [if_pos h1]
    rw [e]
    refine ⟨by simpa using h1, ?_, ?_, ?_, fun _ => rfl, ?_, ?_, ?_, rfl⟩
    · constructor
      · intro h
        simp at h
      · intro h
        exact absurd h.1 (not_le.mpr h1)
    · constructor
      · intro h
        rcases h with h | h <;> simp at h
      · intro h
        linarith
    · intro h
      linarith
    · intro h
      linarith
    · intro h
      linarith
    · intro h
      linarith
  · push_neg at h1
    by_cases h2 : age < redGiantEndOf mass
    · have e : useStarPhysics mass age =
          ⟨Stage.redGiant, StarColor.deepRed,
            baseSizeOf mass *
              (1 + (age - lifespanOf mass) / (redGiantEndOf mass - lifespanOf mass) * 5)⟩ := by
        unfold useStarPhysics
        rw [if_neg (not_lt.mpr h1), if_pos ⟨h1, h2⟩]
      rw [e]
      refine ⟨?_, by simpa using ⟨h1, h2⟩, ?_, ?_, ?_, fun _ _ => by ring, ?_, ?_, rfl⟩
      · constructor
        · intro h
          simp at h
        · intro h
          linarith
      · constructor
        · intro h
          rcases h with h | h <;> simp at h
        · intro h
          linarith
      · intro h
        linarith
      · intro h
        linarith
      · intro h
        linarith
      · intro h
        linarith
    · push_neg at h2
      have hcond : ¬(lifespanOf mass ≤ age ∧ age < redGiantEndOf mass) := by
        intro h
        linarith [h.2]
      by_cases h8 : 8 < mass
      · have e : useStarPhysics mass age =
            ⟨Stage.supernova, StarColor.white, baseSizeOf mass * 0.5⟩ := by
          unfold useStarPhysics
          rw [if_neg (not_lt.mpr h1), if_neg hcond, if_pos h8]
        rw [e]
        refine ⟨?_, ?_, by simpa using h2, fun _ => by simpa using h8,
          ?_, ?_, fun _ _ => rfl, fun _ hle => absurd h8 (not_lt.mpr hle), rfl⟩
        · constructor
          · intro h
            simp at h
          · intro h
            linarith
        · constructor
          · intro h
            simp at h
          · intro h
            linarith [h.2]
        · intro h
          linarith
        · intro hA hB
          linarith
      · have e : useStarPhysics mass age =
            ⟨Stage.whiteDwarf, StarColor.white, baseSizeOf mass * 0.2⟩ := by
          unfold useStarPhysics
          rw [if_neg (not_lt.mpr h1), if_neg hcond, if_neg h8]
        rw [e]
        refine ⟨?_, ?_, by simpa using h2, fun _ => by simpa using h8,
          ?_, ?_, fun _ hgt => absurd hgt h8, fun _ _ => rfl, rfl⟩
        · constructor
          · intro h
            simp at h
          · intro h
            linarith
        · constructor
          · intro h
            simp at h
          · intro h
            linarith [h.2]
        · intro h
          linarith
        · intro hA hB
          linarith

/-- Witness for C1 at mass 1 and age 21/2 = lifespan(1): the boundary age
belongs to the Red Giant stage. -/
theorem C1_stage_selection_witness :
    (useStarPhysics 1 (21 / 2)).stage = Stage.redGiant :=
  ((C1_stage_selection 1 (21 / 2) (by norm_num)).2.1).mpr
    (by rw [lifespanOf_one, redGiantEndOf_one]; norm_num)

/-! ### C2 — the derived lifecycle constants -/

/-- C2 counterexample: the stellar-forge hook does not compute
`lifespan = 10 / mass^2.5 + 0.5`.  At mass 1 it yields 10, while the
claimed formula (and the app file's `lifespanOf`) yields 10.5.  So the
formula does not hold for every place in the program that computes these
constants. -/
theorem C2_counterexample :
    lifespanSF 1 ≠ 10 / (1 : ℝ) ^ (2.5 : ℝ) + 0.5 ∧
    lifespanSF 1 = 10 ∧ lifespanOf 1 = 10.5 := by
  have h1 : lifespanSF 1 = 10 := by
    unfold lifespanSF
    norm_num
  refine ⟨?_, h1, lifespanOf_one⟩
  rw [h1, Real.one_rpow]
  norm_num

/-- C2 amended: for every mass in [0.5, 15], the app file's computations
(shared by `useStarPhysics` and `getSystemPhysics`) satisfy
`lifespan = 10 / mass^2.5 + 0.5 > 0` and
`redGiantEnd = 1.2 * lifespan > lifespan`; the stellar-forge hook instead
computes the different formula `lifespan = 10 / (mass * mass)` (also
positive) and derives no `redGiantEnd` at all. -/
theorem C2_derived_constants (mass : ℝ) (hlo : 0.5 ≤ mass) (hhi' : mass ≤ 15) :
    lifespanOf mass = 10 / mass ^ (2.5 : ℝ) + 0.5 ∧
    0 < lifespanOf mass ∧
    redGiantEndOf mass = 1.2 * lifespanOf mass ∧
    lifespanOf mass < redGiantEndOf mass ∧
    (getSystemPhysics mass 0).lifespan = lifespanOf mass ∧
    (getSystemPhysics mass 0).redGiantEnd = redGiantEndOf mass ∧
    lifespanSF mass = 10 / (mass * mass) ∧
    0 < lifespanSF mass := by
  have hm : 0 < mass := by linarith
  refine ⟨rfl, lifespan_pos hm, ?_, lifespan_lt_redGiantEnd hm, rfl, rfl, rfl, ?_⟩
  · unfold redGiantEndOf
    ring
  · unfold lifespanSF
    positivity

/-- Witness for C2 amended at mass 1. -/
theorem C2_derived_constants_witness :
    0 < lifespanOf 1 ∧ lifespanOf 1 < redGiantEndOf 1 :=
  ⟨(C2_derived_constants 1 (by norm_num) (by norm_num)).2.1,
   (C2_derived_constants 1 (by norm_num) (by norm_num)).2.2.2.1⟩

/-! ### C3 — the mass multiplier of `getSystemPhysics` -/

/-- C3: for every mass > 0 and every age, `getSystemPhysics` computes
`massMultiplier = 1.0` for `age ≤ lifespan`, `1 - 0.6 * phaseProgress` for
`lifespan < age < redGiantEnd`, and `0.4` for `age ≥ redGiantEnd`; it is
continuous at both boundaries (1.0 at `age = lifespan`, exactly 0.4 at
`age = redGiantEnd`), and `currentMass = mass * massMultiplier`. -/
theorem C3_mass_multiplier (mass age : ℝ) (hm : 0 < mass) :
    (age ≤ lifespanOf mass → massMultiplierOf mass age = 1) ∧
    (lifespanOf mass < age → age < redGiantEndOf mass →
      massMultiplierOf mass age =
        1 - 0.6 * ((age - lifespanOf mass) / (redGiantEndOf mass - lifespanOf mass))) ∧
    (redGiantEndOf mass ≤ age → massMultiplierOf mass age = 0.4) ∧
    massMultiplierOf mass (lifespanOf mass) = 1 ∧
    massMultiplierOf mass (redGiantEndOf mass) = 0.4 ∧
    (getSystemPhysics mass age).currentMass = mass * massMultiplierOf mass age := by
  have hLR : lifespanOf mass < redGiantEndOf mass := lifespan_lt_redGiantEnd hm
  have hle : ∀ b : ℝ, b ≤ lifespanOf mass → massMultiplierOf mass b = 1 := by
    intro b hb
    unfold massMultiplierOf
    rw [if_neg, if_neg]
    · norm_num
    · intro h
      linarith
    · intro h
      exact absurd h.1 (not_lt.mpr hb)
  have hge : ∀ b : ℝ, redGiantEndOf mass ≤ b → massMultiplierOf mass b = 0.4 := by
    intro b hb
    unfold massMultiplierOf
    rw [if_neg, if_pos hb]
    intro h
    linarith [h.2]
  refine ⟨hle age, ?_, hge age, hle (lifespanOf mass) le_rfl,
    hge (redGiantEndOf mass) le_rfl, rfl⟩
  intro ha hb
  unfold massMultiplierOf
  rw [if_pos ⟨ha, hb⟩]
  ring

/-- Witness for C3 at mass 1 and age 0. -/
theorem C3_mass_multiplier_witness : massMultiplierOf 1 0 = 1 :=
  (C3_mass_multiplier 1 0 (by norm_num)).1 (by rw [lifespanOf_one]; norm_num)

/-! ### C8 — the 0.4 floor prevents degenerate division -/

/-- C8: for every mass > 0 and every age, the mass multiplier stays within
[0.4, 1], hence `currentMass = mass * massMultiplier ≥ 0.4 * mass > 0`, and
the divisor `initialSystemScale = mass^0.5` of the speed formula is also
positive, so neither `mass / currentMass` in the expansion factor nor the
division by `initialSystemScale` in the speed factor divides by zero. -/
theorem C8_mass_floor (mass age : ℝ) (hm : 0 < mass) :
    0.4 ≤ massMultiplierOf mass age ∧ massMultiplierOf mass age ≤ 1 ∧
    0.4 * mass ≤ (getSystemPhysics mass age).currentMass ∧
    0 < (getSystemPhysics mass age).currentMass ∧
    (getSystemPhysics mass age).currentMass ≠ 0 ∧
    0 < initialSystemScale mass := by
  have hLR : lifespanOf mass < redGiantEndOf mass := lifespan_lt_redGiantEnd hm
  have hbounds : 0.4 ≤ massMultiplierOf mass age ∧ massMultiplierOf mass age ≤ 1 := by
    unfold massMultiplierOf
    split_ifs with h1 h2
    · have hgap : 0 < redGiantEndOf mass - lifespanOf mass := by linarith
      have hp0 : 0 ≤ (age - lifespanOf mass) / (redGiantEndOf mass - lifespanOf mass) :=
        div_nonneg (by linarith [h1.1]) (le_of_lt hgap)
      have hp1 : (age - lifespanOf mass) / (redGiantEndOf mass - lifespanOf mass) ≤ 1 := by
        rw [div_le_one hgap]
        linarith [h1.2]
      constructor <;> nlinarith
    · norm_num
    · norm_num
  have hcm : (getSystemPhysics mass age).currentMass = mass * massMultiplierOf mass age := rfl
  refine ⟨hbounds.1, hbounds.2, ?_, ?_, ?_, ?_⟩
  · rw [hcm]
    nlinarith [hbounds.1]
  · rw [hcm]
    nlinarith [hbounds.1]
  · rw [hcm]
    nlinarith [hbounds.1]
  · exact Real.rpow_pos_of_pos hm _

/-- Witness for C8 at mass 1 and age 20 (deep in the remnant phase). -/
theorem C8_mass_floor_witness :
    0 < (getSystemPhysics 1 20).currentMass :=
  (C8_mass_floor 1 20 (by norm_num)).2.2.2.1

/-! ### Evaluation helpers at mass 1 -/

theorem massMultiplierOf_one_at_lifespan : massMultiplierOf 1 (21 / 2) = 1 := by
  unfold massMultiplierOf
  rw [lifespanOf_one, redGiantEndOf_one, if_neg (by norm_num), if_neg (by norm_num)]
  norm_num

theorem massMultiplierOf_one_at_eleven : massMultiplierOf 1 11 = 6 / 7 := by
  unfold massMultiplierOf
  rw [lifespanOf_one, redGiantEndOf_one, if_pos (by norm_num)]
  norm_num

theorem massMultiplierOf_one_at_five : massMultiplierOf 1 5 = 1 := by
  unfold massMultiplierOf
  rw [lifespanOf_one, redGiantEndOf_one, if_neg (by norm_num), if_neg (by norm_num)]
  norm_num

theorem massMultiplierOf_one_at_mid : massMultiplierOf 1 (231 / 20) = 7 / 10 := by
  unfold massMultiplierOf
  rw [lifespanOf_one, redGiantEndOf_one, if_pos (by norm_num)]
  norm_num

theorem expansionFactorOf_one_at_mid : expansionFactorOf 1 (231 / 20) = 10 / 7 := by
  unfold expansionFactorOf agingExpansionOf
  rw [initialSystemScale_one]
  show 1 / (1 * massMultiplierOf 1 (231 / 20)) * 1 = 10 / 7
  rw [massMultiplierOf_one_at_mid]
  norm_num

theorem expansionFactorOf_one_at_five : expansionFactorOf 1 5 = 1 := by
  unfold expansionFactorOf agingExpansionOf
  rw [initialSystemScale_one]
  show 1 / (1 * massMultiplierOf 1 5) * 1 = 1
  rw [massMultiplierOf_one_at_five]
  norm_num

theorem planetCurrentBaseDist_mercury_eleven :
    planetCurrentBaseDist mercury 1 11 = 49 / 12 := by
  unfold planetCurrentBaseDist agingExpansionOf mercury
  rw [initialSystemScale_one]
  show (3.5 : ℝ) * 1 * (1 / (1 * massMultiplierOf 1 11)) = 49 / 12
  rw [massMultiplierOf_one_at_eleven]
  norm_num

theorem planetDistFromCenter_mercury_eleven :
    planetDistFromCenter mercury 0 1 11 = 49 / 12 := by
  unfold planetDistFromCenter
  rw [planetCurrentBaseDist_mercury_eleven]
  have hpos : planetPosition mercury 0 (49 / 12) = (49 / 12, 0, 0) := by
    unfold planetPosition mercury
    simp [Real.cos_zero, Real.sin_zero]
  rw [hpos]
  show Real.sqrt (49 / 12 * (49 / 12) + 0 * 0) = 49 / 12
  rw [mul_zero, add_zero, Real.sqrt_mul_self (by norm_num : (0:ℝ) ≤ 49 / 12)]

/-! ### C4 — the engulfment policy -/

/-- C4 counterexample: the engulfment window is strict at `lifespan`.  At
mass 1 the lifespan is exactly 21/2; a tick of Mercury at age = lifespan
with an enormous star scale (100) does not make the planet inert, even
though the claim's conditions (`lifespan ≤ age < redGiantEnd` and
`starScale > distanceFromCenter * 0.95`) hold there; the identical tick at
age 11 (strictly inside the window) does make it inert. -/
theorem C4_counterexample :
    (planetTick mercury ⟨0, false⟩ false 1 (21 / 2) 100 0).isDead = false ∧
    (planetTick mercury ⟨0, false⟩ false 1 11 100 0).isDead = true ∧
    lifespanOf 1 = 21 / 2 := by
  refine ⟨?_, ?_, by rw [lifespanOf_one]; norm_num⟩
  · unfold planetTick
    rw [if_neg (by simp)]
    show (if lifespanOf 1 < 21 / 2 ∧ (21 / 2 : ℝ) < redGiantEndOf 1 ∧
        planetDistFromCenter mercury 0 1 (21 / 2) * 0.95 < 100 then true
      else false) = false
    rw [if_neg]
    intro h
    rw [lifespanOf_one] at h
    exact absurd h.1 (by norm_num)
  · unfold planetTick
    rw [if_neg (by simp)]
    show (if lifespanOf 1 < 11 ∧ (11 : ℝ) < redGiantEndOf 1 ∧
        planetDistFromCenter mercury 0 1 11 * 0.95 < 100 then true
      else false) = true
    rw [if_pos]
    refine ⟨by rw [lifespanOf_one]; norm_num, by rw [redGiantEndOf_one]; norm_num, ?_⟩
    rw [planetDistFromCenter_mercury_eleven]
    norm_num

/-- C4 amended: a non-inert body becomes inert on a tick exactly when the
age lies strictly inside the red-giant window, `lifespan < age <
redGiantEnd` (the boundary `age = lifespan` is excluded, unlike the
claim), and `starScale > distanceFromCenter * threshold`, with threshold
0.95 for planets and 0.9 for inner-belt particles (whose distance is the
expanded orbit radius); outer-belt (Kuiper) particles are never made inert
by this check. -/
theorem C4_engulfment (data : PlanetData) (st : PlanetState) (hdead : st.isDead = false)
    (mass age starScale delta dist size : ℝ) :
    ((planetTick data st false mass age starScale delta).isDead = true ↔
      lifespanOf mass < age ∧ age < redGiantEndOf mass ∧
        planetDistFromCenter data st.angle mass age * 0.95 < starScale) ∧
    (asteroidTickSize dist size mass age starScale false = 0 ↔
      (lifespanOf mass < age ∧ age < redGiantEndOf mass ∧
        dist * expansionFactorOf mass age * 0.9 < starScale) ∨ size = 0) ∧
    kuiperTickSize size false = size := by
  refine ⟨?_, ?_, rfl⟩
  · unfold planetTick
    rw [hdead, if_neg (by simp)]
    show (if lifespanOf mass < age ∧ age < redGiantEndOf mass ∧
        planetDistFromCenter data st.angle mass age * 0.95 < starScale then true
      else false) = true ↔ _
    by_cases hc : lifespanOf mass < age ∧ age < redGiantEndOf mass ∧
        planetDistFromCenter data st.angle mass age * 0.95 < starScale
    · rw [if_pos hc]
      simp [hc]
    · rw [if_neg hc]
      simp [hc]
  · unfold asteroidTickSize
    show (if lifespanOf mass < age ∧ age < redGiantEndOf mass ∧
        dist * expansionFactorOf mass age * 0.9 < starScale then (0:ℝ) else size) = 0 ↔ _
    by_cases hc : lifespanOf mass < age ∧ age < redGiantEndOf mass ∧
        dist * expansionFactorOf mass age * 0.9 < starScale
    · rw [if_pos hc]
      simp [hc]
    · rw [if_neg hc]
      simp [hc]

/-- Witness for C4 amended: at mass 1, age 11, star scale 100, Mercury with
angle 0 is engulfed (the tick sets `isDead`). -/
theorem C4_engulfment_witness :
    (planetTick mercury ⟨0, false⟩ false 1 11 100 0).isDead = true :=
  (C4_engulfment mercury ⟨0, false⟩ rfl 1 11 100 0 0 0).1.mpr
    ⟨by rw [lifespanOf_one]; norm_num,
     by rw [redGiantEndOf_one]; norm_num,
     by rw [planetDistFromCenter_mercury_eleven]; norm_num⟩

/-! ### C5 — one-way inertness -/

/-- C5 counterexample: belt-particle "inertness" is not one-way.  An
inner-belt particle (base distance 21/2, size 1/20) is hidden (size 0) on
a tick at mass 1, age 231/20 inside the red-giant window with star scale
100; a subsequent tick with the age moved back to 5 (below the lifespan)
renders the very same particle at its full size 1/20 again — there is no
persistent inert flag for belt particles. -/
theorem C5_counterexample :
    asteroidTickSize (21 / 2) (1 / 20) 1 (231 / 20) 100 false = 0 ∧
    asteroidTickSize (21 / 2) (1 / 20) 1 5 100 false = 1 / 20 ∧
    (1 / 20 : ℝ) ≠ 0 := by
  refine ⟨?_, ?_, by norm_num⟩
  · unfold asteroidTickSize
    show (if lifespanOf 1 < 231 / 20 ∧ (231 / 20 : ℝ) < redGiantEndOf 1 ∧
        (21 / 2) * expansionFactorOf 1 (231 / 20) * 0.9 < 100 then (0:ℝ) else 1 / 20) = 0
    rw [if_pos]
    refine ⟨by rw [lifespanOf_one]; norm_num, by rw [redGiantEndOf_one]; norm_num, ?_⟩
    rw [expansionFactorOf_one_at_mid]
    norm_num
  · unfold asteroidTickSize
    show (if lifespanOf 1 < 5 ∧ (5 : ℝ) < redGiantEndOf 1 ∧
        (21 / 2) * expansionFactorOf 1 5 * 0.9 < 100 then (0:ℝ) else 1 / 20) = 1 / 20
    rw [if_neg]
    intro h
    rw [lifespanOf_one] at h
    exact absurd h.1 (by norm_num)

/-- C5 amended: inertness is one-way for planets — once a planet's
`isDead` flag is set, every subsequent tick (any inputs, any age, also ages
below the lifespan) leaves it set; only a full system reset, which
re-creates the bodies, clears it.  Belt particles carry no persistent inert
flag at all: their hiding is recomputed from the current inputs each frame
(see the counterexample). -/
theorem C5_one_way_planets (data : PlanetData) (st : PlanetState) (exploded : Bool)
    (mass age starScale delta : ℝ) (h : st.isDead = true) :
    (planetTick data st exploded mass age starScale delta).isDead = true := by
  unfold planetTick
  rw [h, if_pos (by simp)]
  exact h

/-- Witness for C5 amended: a dead Mercury stays dead on the next tick. -/
theorem C5_one_way_planets_witness :
    (planetTick mercury ⟨0, true⟩ false 1 0 0 0).isDead = true :=
  C5_one_way_planets mercury ⟨0, true⟩ false 1 0 0 0 rfl

/-! ### C6 — re-entrant explosion trigger -/

/-- C6 counterexample: triggering at time 0 and again at time 1000 (while
still exploding) leaves TWO pending revert timers — `triggerDeath`
schedules a new `setTimeout` unconditionally, contradicting the claim that
no second competing revert timer is created. -/
theorem C6_counterexample :
    (triggerDeath 1000 (triggerDeath 0 explosionInit)).timers = [2000, 3000] ∧
    (triggerDeath 1000 (triggerDeath 0 explosionInit)).timers.length = 2 := by
  constructor
  · show ([] ++ [(0 : ℚ) + 2000]) ++ [(1000 : ℚ) + 2000] = [2000, 3000]
    norm_num
  · rfl

/-- C6 amended: re-triggering while exploding neither resets nor extends
the first deadline (it stays pending at `t0 + 2000`), but it DOES create a
second competing revert timer at `t1 + 2000`.  The system still returns to
Normal 2 seconds after the first trigger: every pending deadline is at
least `t0 + 2000`, and the timer firing at `t0 + 2000` clears the flag,
leaving the second timer to fire later as a no-op on the already-reverted
flag. -/
theorem C6_retrigger (t0 t1 : ℚ) (h0 : t0 ≤ t1) (h1 : t1 < t0 + 2000) :
    (triggerDeath t1 (triggerDeath t0 explosionInit)).exploded = true ∧
    (triggerDeath t1 (triggerDeath t0 explosionInit)).timers = [t0 + 2000, t1 + 2000] ∧
    (∀ d ∈ (triggerDeath t1 (triggerDeath t0 explosionInit)).timers, t0 + 2000 ≤ d) ∧
    (fireTimer (t0 + 2000) (triggerDeath t1 (triggerDeath t0 explosionInit))).exploded
      = false ∧
    (fireTimer (t0 + 2000) (triggerDeath t1 (triggerDeath t0 explosionInit))).timers
      = [t1 + 2000] := by
  have ht : (triggerDeath t1 (triggerDeath t0 explosionInit)).timers
      = [t0 + 2000, t1 + 2000] := rfl
  have hmem : (t0 + 2000) ∈ (triggerDeath t1 (triggerDeath t0 explosionInit)).timers := by
    rw [ht]
    exact List.mem_cons_self _ _
  refine ⟨rfl, ht, ?_, ?_, ?_⟩
  · intro d hd
    rw [ht] at hd
    rcases List.mem_cons.mp hd with h | h
    · rw [h]
    · rcases List.mem_cons.mp h with h' | h'
      · rw [h']
        linarith
      · exact absurd h' (List.not_mem_nil _)
  · unfold fireTimer
    rw [if_pos hmem]
  · unfold fireTimer
    rw [if_pos hmem, ht]
    exact List.erase_cons_head _ _

/-- Witness for C6 amended at trigger times 0 and 1000. -/
theorem C6_retrigger_witness :
    (fireTimer (0 + 2000) (triggerDeath 1000 (triggerDeath 0 explosionInit))).exploded
      = false :=
  (C6_retrigger 0 1000 (by norm_num) (by norm_num)).2.2.2.1

/-! ### C7 — rendering while exploding -/

/-- C7 counterexample: while exploding, a non-inert planet is NOT rendered
at zero size.  Earth (catalog size 0.3) renders with its normal sphere
radius 0.3 (only darkened, the second component `true`), which is not
zero. -/
theorem C7_counterexample :
    (⟨7.0, 0.3, 1.0, false, 0, 0⟩ : PlanetData) ∈ planetCatalog ∧
    planetRender ⟨7.0, 0.3, 1.0, false, 0, 0⟩ true false = some (0.3, true) ∧
    (0.3 : ℝ) ≠ 0 := by
  refine ⟨?_, rfl, by norm_num⟩
  unfold planetCatalog
  exact List.mem_cons_of_mem _ (List.mem_cons_of_mem _ (List.mem_cons_self _ _))

/-- C7 amended: while exploding, both particle belts render at zero size
regardless of inertness, but planets do not: a non-inert planet keeps its
normal (nonzero) sphere size and is merely darkened, while an inert planet
is not rendered at all. -/
theorem C7_explosion_render (dist size mass age starScale : ℝ) (p : PlanetData)
    (hp : p ∈ planetCatalog) :
    asteroidTickSize dist size mass age starScale true = 0 ∧
    kuiperTickSize size true = 0 ∧
    planetRender p true false = some (p.size, true) ∧
    p.size ≠ 0 ∧
    planetRender p true true = none := by
  refine ⟨?_, rfl, rfl, ?_, rfl⟩
  · unfold asteroidTickSize
    simp
  · unfold planetCatalog at hp
    simp only [List.mem_cons, List.not_mem_nil, or_false] at hp
    rcases hp with h | h | h | h | h | h | h | h | h <;> rw [h] <;> norm_num

/-- Witness for C7 amended with Mercury (the head of the catalog). -/
theorem C7_explosion_render_witness :
    kuiperTickSize 1 true = 0 ∧ planetRender mercury true false = some (mercury.size, true) :=
  ⟨(C7_explosion_render 0 1 1 0 0 mercury
      (by unfold mercury planetCatalog; exact List.mem_cons_self _ _)).2.1,
   (C7_explosion_render 0 1 1 0 0 mercury
      (by unfold mercury planetCatalog; exact List.mem_cons_self _ _)).2.2.1⟩

/-! ### C9 — no clamping of out-of-range inputs -/

theorem jsLt_nanL (b : Option ℝ) : ¬ jsLtProp none b := by
  cases b <;> simp [jsLtProp]

theorem jsLt_nanR (a : Option ℝ) : ¬ jsLtProp a none := by
  cases a <;> simp [jsLtProp]

theorem jsGe_nanL (b : Option ℝ) : ¬ jsGeProp none b := by
  cases b <;> simp [jsGeProp]

theorem jsGe_nanR (a : Option ℝ) : ¬ jsGeProp a none := by
  cases a <;> simp [jsGeProp]

/-- C9 counterexample: the core performs no clamping.  With the raw input
mass = -1 (and age 0) the lifespan is NaN, both branch comparisons are
false, and the stage selection falls through to 'White Dwarf'; had the
mass been clamped into [0.5, 15] (e.g. to 0.5), the same age would yield
'Main Sequence'.  A NaN age likewise falls through to 'White Dwarf'
instead of being clamped or rejected. -/
theorem C9_counterexample :
    stageOfJS (-1) (some 0) = Stage.whiteDwarf ∧
    stageOfJS (1 / 2) (some 0) = Stage.mainSequence ∧
    stageOfJS 1 none = Stage.whiteDwarf ∧
    Stage.whiteDwarf ≠ Stage.mainSequence := by
  refine ⟨?_, ?_, ?_, by simp⟩
  · unfold stageOfJS deathStartJS
    have hl : lifespanJS (-1) = none := by
      unfold lifespanJS
      rw [if_pos (by norm_num)]
    rw [hl]
    rw [if_neg (jsLt_nanR _), if_neg (fun hc => jsGe_nanR _ hc.1), if_neg (by norm_num)]
  · unfold stageOfJS
    have hl : lifespanJS (1 / 2) = some (10 / (1 / 2 : ℝ) ^ (2.5 : ℝ) + 0.5) := by
      unfold lifespanJS
      rw [if_neg (by norm_num)]
    rw [hl, if_pos]
    show (0 : ℝ) < 10 / (1 / 2 : ℝ) ^ (2.5 : ℝ) + 0.5
    have h := Real.rpow_pos_of_pos (by norm_num : (0:ℝ) < 1 / 2) (2.5 : ℝ)
    positivity
  · unfold stageOfJS
    rw [if_neg (jsLt_nanL _), if_neg (fun hc => jsGe_nanL _ hc.1), if_neg (by norm_num)]

/-- C9 amended: the core does not clamp or reject out-of-range values; a
NaN age, or a mass < 0 (whose derived lifespan is NaN), makes both branch
comparisons false, so the stage selection always falls through to the
final remnant branch — 'SUPERNOVA' for mass > 8, otherwise 'White Dwarf' —
rather than computing with clamped values.  Input clamping exists only in
the presentation layer's slider bounds. -/
theorem C9_no_clamping (mass : ℝ) (age : Option ℝ) (h : age = none ∨ mass < 0) :
    stageOfJS mass age = if 8 < mass then Stage.supernova else Stage.whiteDwarf := by
  unfold stageOfJS
  rcases h with h | h
  · subst h
    rw [if_neg (jsLt_nanL _), if_neg (fun hc => jsGe_nanL _ hc.1)]
  · have hl : lifespanJS mass = none := by
      unfold lifespanJS
      rw [if_pos h]
    unfold deathStartJS
    rw [hl]
    rw [if_neg (jsLt_nanR _), if_neg (fun hc => jsGe_nanR _ hc.1)]

/-- Witness for C9 amended at mass -3, age 1. -/
theorem C9_no_clamping_witness : stageOfJS (-3) (some 1) = Stage.whiteDwarf := by
  have h := C9_no_clamping (-3) (some 1) (Or.inr (by norm_num))
  rw [h, if_neg (by norm_num)]

/-! ### C10 — the playback tick -/

/-- C10 counterexample: a tick at age 14.9 while playing does not add
0.05 — it snaps the age to 15 (an increment of 0.1) and stops playback,
even though the clamp value 15 had not yet been reached. -/
theorem C10_counterexample :
    stepTick ⟨149 / 10, true⟩ = ⟨15, false⟩ ∧
    (15 : ℚ) - 149 / 10 ≠ 1 / 20 := by
  constructor
  · unfold stepTick
    rw [if_pos ⟨rfl, by norm_num⟩, if_pos (by norm_num)]
  · norm_num

/-- C10 amended: while playing, a 50 ms tick adds exactly 0.05 only while
`age < 14.9`; once `14.9 ≤ age < 15` the tick sets the age to exactly 15
(an increment of up to 0.1) and stops playback; when not playing, or at
the clamp, the tick changes nothing.  The step preserves age in
[0, 15]. -/
theorem C10_playback (a : ℚ) (p : Bool) (h0 : 0 ≤ a) (h15 : a ≤ 15) :
    (0 ≤ (stepTick ⟨a, p⟩).age ∧ (stepTick ⟨a, p⟩).age ≤ 15) ∧
    (p = true → a < 149 / 10 → stepTick ⟨a, p⟩ = ⟨a + 1 / 20, true⟩) ∧
    (p = true → 149 / 10 ≤ a → a < 15 → stepTick ⟨a, p⟩ = ⟨15, false⟩) ∧
    (p = false → stepTick ⟨a, p⟩ = ⟨a, p⟩) ∧
    (a = 15 → stepTick ⟨a, p⟩ = ⟨a, p⟩) := by
  refine ⟨?_, ?_, ?_, ?_, ?_⟩
  · unfold stepTick
    split_ifs with h1 h2
    · constructor <;> norm_num
    · push_neg at h2
      constructor
      · show 0 ≤ a + 0.05
        linarith
      · show a + 0.05 ≤ 15
        linarith
    · exact ⟨h0, h15⟩
  · intro hp ha
    subst hp
    unfold stepTick
    rw [if_pos ⟨rfl, by linarith⟩, if_neg (by push_neg; linarith)]
    have h5 : (0.05 : ℚ) = 1 / 20 := by norm_num
    rw [h5]
  · intro hp ha ha'
    subst hp
    unfold stepTick
    rw [if_pos ⟨rfl, ha'⟩, if_pos (by linarith)]
  · intro hp
    subst hp
    unfold stepTick
    rw [if_neg]
    intro hc
    exact Bool.noConfusion hc.1
  · intro he
    subst he
    unfold stepTick
    rw [if_neg]
    intro hc
    exact absurd hc.2 (lt_irrefl 15)

/-- Witness for C10 amended: from age 0 while playing, one tick adds
exactly 1/20. -/
theorem C10_playback_witness : stepTick ⟨0, true⟩ = ⟨0 + 1 / 20, true⟩ :=
  (C10_playback 0 true (by norm_num) (by norm_num)).2.1 rfl (by norm_num)
